import Mathlib

/-!
Verification of the Hesa Fredrik VMA app core: the geocode matcher and
alert-distribution pipeline (app.js), the per-device incident state machine
(drivers/vma/device.js), the fetch client, the reconnection backoff and the
circuit breaker.  JavaScript objects are embedded as Lean structures with
`Option` for possibly-absent fields; JavaScript falsy tests on strings
(`!s`, `s || fallback`) are embedded by treating both `none` and the empty
string as falsy.
-/

namespace HesaFredrik

/-- An entry of an AlertInfo's `area` array: `{ areaDesc, geocode }`. -/
structure AreaRef where
  areaDesc : Option String
  geocode : Option String
deriving DecidableEq, Repr

/-- An entry of an alert's `info` array (one per language). -/
structure AlertInfo where
  language : Option String
  description : Option String
  event : Option String
  severity : Option String
  urgency : Option String
  areaDesc : Option String
  area : Option (List AreaRef)
deriving DecidableEq, Repr

/-- An alert record as returned by the VMA API: `incidents` is the incident
identifier, `msgType` is "Alert" or "Cancel", `status` is
"Actual"/"Exercise"/"Test", `info` is the per-language info array.
Fields that JavaScript may find `undefined` are `Option`s. -/
structure Alert where
  incidents : Option String
  msgType : Option String
  status : Option String
  info : Option (List AlertInfo)
deriving DecidableEq, Repr

/-- JavaScript `v || fallback` on a string-valued expression: `undefined`
and the empty string are falsy. -/
def jsOr (v : Option String) (fallback : String) : String :=
  match v with
  | some s => if s = "" then fallback else s
  | none => fallback

/-! ### Geocode matcher (app.js, fetchAndDistributeAlerts, filter body) -/

/-- JavaScript `s.startsWith(pre)`: character-level prefix test. -/
def strStartsWith (s pre : String) : Bool :=
  pre.toList.isPrefixOf s.toList

/-- The innermost test of the filter in `fetchAndDistributeAlerts`: does one
`area` entry's geocode make the alert relevant to `deviceAreaCode`?
Mirrors: `if (!alertGeocode) return false; if (alertGeocode === deviceAreaCode)
return true; if (alertGeocode.length === 2 && deviceAreaCode.length === 4)
return deviceAreaCode.startsWith(alertGeocode); return false;`. -/
def areaRefMatches (deviceAreaCode : String) (area : AreaRef) : Bool :=
  match area.geocode with
  | none => false
  | some alertGeocode =>
    if alertGeocode = "" then false
    else if alertGeocode = deviceAreaCode then true
    else if alertGeocode.length = 2 ∧ deviceAreaCode.length = 4 then
      strStartsWith deviceAreaCode alertGeocode
    else false

/-- One `info` entry's test: `if (!info.area || !Array.isArray(info.area))
return false; return info.area.some(...)`. -/
def infoMatches (deviceAreaCode : String) (info : AlertInfo) : Bool :=
  match info.area with
  | none => false
  | some areas => areas.any (areaRefMatches deviceAreaCode)

/-- The filter predicate applied to each alert for a non-"00" device:
`if (!alert.info || !Array.isArray(alert.info)) return false;
return alert.info.some(...)`. -/
def alertFilterPred (deviceAreaCode : String) (alert : Alert) : Bool :=
  match alert.info with
  | none => false
  | some infos => infos.any (infoMatches deviceAreaCode)

/-- The whole geocode matcher: geocode "00" receives ALL alerts (the
`deviceAreaCode === '00'` special case keeps the unfiltered list),
otherwise the filter predicate decides. -/
def geocodeMatches (deviceAreaCode : String) (alert : Alert) : Bool :=
  if deviceAreaCode = "00" then true else alertFilterPred deviceAreaCode alert

/-- The relevant-alert list built for a device:
`relevantAlerts = alertSource` for "00", else `alertSource.filter(...)`. -/
def relevantAlertsFor (deviceAreaCode : String) (alertSource : List Alert) :
    List Alert :=
  if deviceAreaCode = "00" then alertSource
  else alertSource.filter (alertFilterPred deviceAreaCode)

/-- A well-formed target area code per the data model: a string of digits
that is either 2 characters (county, or the nationwide sentinel "00") or
4 characters (municipality) long. -/
def isAreaCode (t : String) : Bool :=
  t.toList.all Char.isDigit && (t.length = 2 || t.length = 4)

/-- The spec's reading of a single area entry: its geocode either equals the
target exactly, or is a 2-digit (digits-only) string that is a prefix of the
4-digit (digits-only) target. -/
def specAreaMatch (t : String) (area : AreaRef) : Bool :=
  match area.geocode with
  | none => false
  | some g =>
    (g = t) ||
    (g.toList.all Char.isDigit && g.length = 2 &&
     t.toList.all Char.isDigit && t.length = 4 && strStartsWith t g)

/-- The spec's reading of the matcher, written from the spec's words: the
target matches iff it is "00", or the alert has at least one info entry with
at least one area entry satisfying `specAreaMatch`. -/
def specMatches (t : String) (alert : Alert) : Bool :=
  if t = "00" then true
  else
    (alert.info.getD []).any (fun info =>
      (info.area.getD []).any (specAreaMatch t))

/-! ### Incident state machine (drivers/vma/device.js, processAlerts) -/

/-- Tokens passed to the `vma_trigger` flow card by `processAlerts`. -/
structure TriggerTokens where
  message : String
  description : Option String
  severity : Option String
  urgency : Option String
  event : Option String
  area : String
  status : Option String
  exercise : Bool
  test : Bool
deriving DecidableEq, Repr

/-- Tokens passed to the cancel flow card by `processAlerts`. -/
structure CancelTokens where
  message : String
  area : String
  incident_id : String
deriving DecidableEq, Repr

/-- Observable effects of processing a batch of alerts: flow-card triggers
and `this.error` reports. -/
inductive DeviceEvent where
  | triggered (tokens : TriggerTokens)
  | cancelled (tokens : CancelTokens)
  | reported (msg : String)
deriving DecidableEq, Repr

/-- Per-device settings and host environment, fixed during one
`processAlerts` call: the `onoff` capability, the `test_mode` setting and
Homey's language (`this.homey.i18n?.getLanguage?.() || 'sv'`). -/
structure DeviceEnv where
  onoff : Bool
  test_mode : Bool
  locale : String
deriving DecidableEq, Repr

/-- Mutable device state: the incident registry `this.incidents` (a
JavaScript object keyed by incident id, embedded as an association list
with unique keys in insertion order), the `alarm_generic` capability and
the `message` capability. -/
structure DeviceState where
  incidents : List (String × Alert)
  alarm_generic : Bool
  message : Option String
deriving DecidableEq, Repr

/-- JavaScript object indexing `this.incidents[incidentId]` coerces an
`undefined` incident id to the string key "undefined". -/
def idKey (a : Alert) : String :=
  match a.incidents with
  | some s => s
  | none => "undefined"

/-- Registry lookup, `this.incidents[incidentId]`. -/
def regLookup (k : String) : List (String × Alert) → Option Alert
  | [] => none
  | (k', a) :: rest => if k' = k then some a else regLookup k rest

/-- Registry deletion, `delete this.incidents[incidentId]`. -/
def regRemove (k : String) (reg : List (String × Alert)) :
    List (String × Alert) :=
  reg.filter (fun p => p.1 ≠ k)

/-- Embeds `i.language?.toLowerCase().startsWith(lang.toLowerCase())`: an absent
language never matches.  Lower-casing is embedded per character. -/
def languageMatches (lang : String) (i : AlertInfo) : Bool :=
  match i.language with
  | none => false
  | some l =>
    (lang.toList.map Char.toLower).isPrefixOf (l.toList.map Char.toLower)

/-- Function `getBestLanguageInfo` (device.js): `null` for a missing or empty info
array; otherwise the first entry whose language starts with Homey's
language, else the first entry whose language starts with "sv", else the
first entry of the array. -/
def getBestLanguageInfo (homeyLanguage : String)
    (infoArray : Option (List AlertInfo)) : Option AlertInfo :=
  match infoArray with
  | none => none
  | some [] => none
  | some infos =>
    match infos.find? (languageMatches homeyLanguage) with
    | some i => some i
    | none =>
      match infos.find? (languageMatches "sv") with
      | some i => some i
      | none => infos.head?

/-- Function `formatAlertMessage` (device.js):
`alertInfo.description || alertInfo.event || 'VMA Alert'` (the `status`
argument is accepted and ignored, as in the source). -/
def formatAlertMessage (alertInfo : AlertInfo) (_status : Option String) :
    String :=
  jsOr alertInfo.description (jsOr alertInfo.event "VMA Alert")

/-- The `area` token:
`alertInfo.areaDesc || alertInfo.area?.[0]?.areaDesc || ''`. -/
def areaToken (alertInfo : AlertInfo) : String :=
  jsOr alertInfo.areaDesc
    (jsOr ((alertInfo.area.bind List.head?).bind AreaRef.areaDesc) "")

/-- The token object passed to `this.driver.triggerVMA`. -/
def triggerTokensFor (alertInfo : AlertInfo) (alert : Alert) : TriggerTokens :=
  { message := formatAlertMessage alertInfo alert.status
    description := alertInfo.description
    severity := alertInfo.severity
    urgency := alertInfo.urgency
    event := alertInfo.event
    area := areaToken alertInfo
    status := alert.status
    exercise := alert.status == some "Exercise"
    test := alert.status == some "Test" }

/-- The token object passed to `this.driver.triggerVMACancel`. -/
def cancelTokensFor (alertInfo : AlertInfo) (stored : Alert)
    (incidentId : String) : CancelTokens :=
  { message := formatAlertMessage alertInfo stored.status
    area := areaToken alertInfo
    incident_id := incidentId }

/-- The `this.error` text for a Test alert reaching a production device. -/
def testWarning : String :=
  "WARNING: Received Test alert in production mode - app filtering failed"

/-- The `this.error` text when no language info is found. -/
def noInfoReport : String := "No suitable language info found in alert"

/-- Processing of one alert in the `for (const alert of alerts)` loop of
`processAlerts`: returns the updated state and the emitted events.  The
`status === 'Test' && !testMode` guard comes first (`continue` after an
error report); then `msgType === 'Alert' && !this.incidents[incidentId]`
stores the incident, and — when a best-language info exists — sets the
`message` capability and fires the trigger (else only reports); then
`msgType === 'Cancel' && this.incidents[incidentId]` fires the cancel
trigger (when the stored alert has a best-language info) and removes the
incident.  Anything else is a no-op. -/
def processOneAlert (env : DeviceEnv) (s : DeviceState) (alert : Alert) :
    DeviceState × List DeviceEvent :=
  let incidentId := idKey alert
  if alert.status = some "Test" ∧ env.test_mode = false then
    (s, [DeviceEvent.reported testWarning])
  else if alert.msgType = some "Alert" ∧ regLookup incidentId s.incidents = none then
    let incidents := s.incidents ++ [(incidentId, alert)]
    match getBestLanguageInfo env.locale alert.info with
    | some alertInfo =>
      ({ s with incidents := incidents,
                message := some (formatAlertMessage alertInfo alert.status) },
       [DeviceEvent.triggered (triggerTokensFor alertInfo alert)])
    | none =>
      ({ s with incidents := incidents }, [DeviceEvent.reported noInfoReport])
  else if alert.msgType = some "Cancel" then
    match regLookup incidentId s.incidents with
    | some cancelledIncident =>
      let evs :=
        match getBestLanguageInfo env.locale cancelledIncident.info with
        | some alertInfo =>
          [DeviceEvent.cancelled (cancelTokensFor alertInfo cancelledIncident incidentId)]
        | none => []
      ({ s with incidents := regRemove incidentId s.incidents }, evs)
    | none => (s, [])
  else (s, [])

/-- The `for (const alert of alerts)` loop: fold `processOneAlert` over the
batch, concatenating the emitted events. -/
def processAlertsLoop (env : DeviceEnv) :
    DeviceState → List Alert → DeviceState × List DeviceEvent
  | s, [] => (s, [])
  | s, alert :: rest =>
    let r1 := processOneAlert env s alert
    let r2 := processAlertsLoop env r1.1 rest
    (r2.1, r1.2 ++ r2.2)

/-- Function `processAlerts` (device.js): do nothing when the device is off;
otherwise run the loop over the batch, then set `alarm_generic` to whether
the registry is non-empty and clear the `message` capability when the
registry became empty. -/
def processAlerts (env : DeviceEnv) (s : DeviceState) (alerts : List Alert) :
    DeviceState × List DeviceEvent :=
  if env.onoff = false then (s, [])
  else
    let r := processAlertsLoop env s alerts
    ({ r.1 with
        alarm_generic := !r.1.incidents.isEmpty
        message := if r.1.incidents.isEmpty then none else r.1.message }, r.2)

/-- Number of `triggered` emissions in an event list. -/
def countTriggered (evs : List DeviceEvent) : Nat :=
  (evs.filter (fun e => match e with
    | DeviceEvent.triggered _ => true
    | _ => false)).length

/-- A device state whose `alarm_generic` and `message` capabilities agree
with its registry, as `processAlerts` always leaves them. -/
def wellFormed (s : DeviceState) : Bool :=
  (s.alarm_generic == !s.incidents.isEmpty) &&
  (!s.incidents.isEmpty || decide (s.message = none))

/-! ### Reconnection backoff (app.js, scheduleReconnection) -/

/-- Constant `CONFIG.SSE_RECONNECT_DELAY` in milliseconds. -/
def SSE_RECONNECT_DELAY : Nat := 5000

/-- Constant `CONFIG.MAX_BACKOFF_DELAY` in milliseconds. -/
def MAX_BACKOFF_DELAY : Nat := 60000

/-- The retryCount update in `scheduleReconnection`:
`sse.retryCount = Math.min(sse.retryCount + 1, 10)`. -/
def nextRetryCount (retryCount : Nat) : Nat := min (retryCount + 1) 10

/-- The delay computed by `scheduleReconnection` from the already
incremented retryCount: `Math.min(CONFIG.SSE_RECONNECT_DELAY *
(2 ** (sse.retryCount - 1)), CONFIG.MAX_BACKOFF_DELAY)`. -/
def reconnectDelay (retryCount : Nat) : Nat :=
  min (SSE_RECONNECT_DELAY * 2 ^ (retryCount - 1)) MAX_BACKOFF_DELAY

/-- The connection's retryCount after n error-triggered reconnection
schedules, starting from a fresh connection (retryCount 0). -/
def retryCountAfter : Nat → Nat
  | 0 => 0
  | n + 1 => nextRetryCount (retryCountAfter n)

/-- The delay computed at the (n+1)-st schedule (n counted from 0). -/
def delayAt (n : Nat) : Nat := reconnectDelay (retryCountAfter (n + 1))

/-! ### Circuit breaker (app.js, fetchAndDistributeAlerts) -/

/-- The circuit-breaker fields of the app: `this._apiFailureCount` and
`this._apiCircuitOpen`. -/
structure Breaker where
  apiFailureCount : Nat
  apiCircuitOpen : Bool
deriving DecidableEq, Repr

/-- Breaker state as initialized in `onInit`: count 0, circuit closed. -/
def initBreaker : Breaker := { apiFailureCount := 0, apiCircuitOpen := false }

/-- One call of `fetchAndDistributeAlerts`, abstracted to its effect on the
circuit breaker.  The second component records whether the run body (and
hence any fetch) executed.  If `_apiCircuitOpen` the call returns before
fetching.  When the fetches resolve, `_apiFailureCount = 0`.  On a
pipeline-level failure (the outer catch) the count is incremented and when
it reaches 5 the circuit opens (scheduling a cool-down reset). -/
def pipelineRun (b : Breaker) (success : Bool) : Breaker × Bool :=
  if b.apiCircuitOpen then (b, false)
  else if success then ({ b with apiFailureCount := 0 }, true)
  else
    let fc := b.apiFailureCount + 1
    if fc ≥ 5 then ({ apiFailureCount := fc, apiCircuitOpen := true }, true)
    else ({ b with apiFailureCount := fc }, true)

/-- The cool-down timer body:
`this._apiCircuitOpen = false; this._apiFailureCount = 0;`. -/
def cooldownReset (_b : Breaker) : Breaker :=
  { apiFailureCount := 0, apiCircuitOpen := false }

/-- Breaker-relevant events over the app's lifetime: pipeline runs
(successful or failing) and cool-down timer firings. -/
inductive BreakerEvent where
  | run (success : Bool)
  | cooldown
deriving DecidableEq, Repr

/-- Effect of one breaker event on the breaker state. -/
def breakerStep (b : Breaker) : BreakerEvent → Breaker
  | BreakerEvent.run success => (pipelineRun b success).1
  | BreakerEvent.cooldown => cooldownReset b

/-- Breaker state after a sequence of events starting at `onInit`. -/
def breakerExec (events : List BreakerEvent) : Breaker :=
  events.foldl breakerStep initBreaker

/-- The reachability invariant of the breaker: while closed the failure
count is at most 4, and while open it is exactly 5. -/
def BreakerInv (b : Breaker) : Prop :=
  (b.apiCircuitOpen = false → b.apiFailureCount ≤ 4) ∧
  (b.apiCircuitOpen = true → b.apiFailureCount = 5)

/-! ### Fetch client (app.js, fetchAlertsFromEndpoint) -/

/-- The parsed JSON body of a successful GET: its optional `alerts` array. -/
structure ApiPayload where
  alerts : Option (List Alert)
deriving DecidableEq, Repr

/-- Function `fetchAlertsFromEndpoint` (app.js): the GET either resolves to a parsed
payload or throws (network error, timeout, HTTP error status, or a payload
on which accessing `.alerts` throws).  The function returns
`{ type, alerts: json.alerts || [] }` on success and `{ type, alerts: [] }`
from the catch block — it never rethrows to its caller. -/
def fetchAlertsFromEndpoint (type : String)
    (response : Except String ApiPayload) : String × List Alert :=
  match response with
  | Except.ok json => (type, json.alerts.getD [])
  | Except.error _ => (type, [])

/-! ### Endpoint needs and SSE reconciliation (app.js) -/

/-- The settings of one registered VMA device that matter to endpoint
needs. -/
structure VmaDeviceSettings where
  test_mode : Bool
deriving DecidableEq, Repr

/-- Function `getDeviceEndpointNeeds` (app.js): enumerate the vma driver's devices;
`hasProduction` is `devices.some(s => s.test_mode !== true)` and `hasTest`
is `devices.some(s => s.test_mode === true)`; the whole body is wrapped in
try/catch and any enumeration error yields
`{ hasProduction: false, hasTest: false }`. -/
def getDeviceEndpointNeeds
    (devices : Except String (List VmaDeviceSettings)) : Bool × Bool :=
  match devices with
  | Except.error _ => (false, false)
  | Except.ok ds =>
    (ds.any (fun d => !d.test_mode), ds.any (fun d => d.test_mode))

/-- One SSE connection record (`this.productionSSE` / `this.testSSE`).
The EventSource handle and timer are represented by identifiers. -/
structure SSEConn where
  eventSource : Option Nat
  connected : Bool
  retryCount : Nat
  reconnectTimer : Option Nat
  connectedAt : Option Nat
  createdAt : Option Nat
deriving DecidableEq, Repr

/-- Function `closeSSE` (app.js): close and null the EventSource, reset the
connection markers, and clear any pending reconnect timer. -/
def closeSSE (sse : SSEConn) : SSEConn :=
  { eventSource := none, connected := false, connectedAt := none,
    createdAt := none, reconnectTimer := none, retryCount := sse.retryCount }

/-- Function `setupSSE` (app.js): close any existing EventSource, reset `connected`,
clear any pending reconnect timer, and create a fresh EventSource (the new
handle and creation time are parameters of the embedding). -/
def setupSSE (now handle : Nat) (sse : SSEConn) : SSEConn :=
  { eventSource := some handle, connected := false,
    connectedAt := sse.connectedAt, createdAt := some now,
    reconnectTimer := none, retryCount := sse.retryCount }

/-- The app's two SSE connection records. -/
structure SSEState where
  productionSSE : SSEConn
  testSSE : SSEConn
deriving DecidableEq, Repr

/-- Function `setupSSEConnections` (app.js): recompute the endpoint needs and
reconcile each connection — set it up when needed, close it when not. -/
def setupSSEConnections (devices : Except String (List VmaDeviceSettings))
    (now prodHandle testHandle : Nat) (st : SSEState) : SSEState :=
  let needs := getDeviceEndpointNeeds devices
  { productionSSE :=
      if needs.1 then setupSSE now prodHandle st.productionSSE
      else closeSSE st.productionSSE
    testSSE :=
      if needs.2 then setupSSE now testHandle st.testSSE
      else closeSSE st.testSSE }

/-! ### Spec-side language selection (claim C8) -/

/-- Lower-casing of a string as a character list (JavaScript
`toLowerCase`, per character). -/
def lowerChars (s : String) : List Char := s.toList.map Char.toLower

/-- The claim's original reading of best-language selection: EXACT
(case-insensitive) match of the info language on the host locale, then the
Swedish fallback, then the first entry. -/
def specBestLanguageInfo (homeyLanguage : String)
    (infoArray : Option (List AlertInfo)) : Option AlertInfo :=
  match infoArray with
  | none => none
  | some [] => none
  | some infos =>
    match infos.find? (fun i =>
        match i.language with
        | none => false
        | some l => lowerChars l = lowerChars homeyLanguage) with
    | some i => some i
    | none =>
      match infos.find? (languageMatches "sv") with
      | some i => some i
      | none => infos.head?

/-- The amended reading of best-language selection: the first entry whose
lower-cased language STARTS WITH the lower-cased host locale, else the
first entry whose lower-cased language starts with "sv", else the first
entry. -/
def amendedBestLanguageInfo (homeyLanguage : String)
    (infoArray : Option (List AlertInfo)) : Option AlertInfo :=
  match infoArray with
  | none => none
  | some [] => none
  | some infos =>
    match infos.find? (fun i =>
        match i.language with
        | none => false
        | some l => (lowerChars homeyLanguage).isPrefixOf (lowerChars l)) with
    | some i => some i
    | none =>
      match infos.find? (fun i =>
          match i.language with
          | none => false
          | some l => (lowerChars "sv").isPrefixOf (lowerChars l)) with
      | some i => some i
      | none => infos.head?

/-- Swedish info entry used by the C8 counterexample. -/
def svInfoEx : AlertInfo :=
  { language := some "sv-SE", description := some "Svensk beskrivning",
    event := some "Storm", severity := some "Severe",
    urgency := some "Immediate", areaDesc := some "Sverige", area := some [] }

/-- British-English info entry used by the C8 counterexample. -/
def enGbInfoEx : AlertInfo :=
  { language := some "en-GB", description := some "English description",
    event := some "Storm", severity := some "Severe",
    urgency := some "Immediate", areaDesc := some "Sweden", area := some [] }

/-- The info entry of `countyAlert`, used by witnesses. -/
def countyAlertInfo : AlertInfo :=
  { language := some "sv-SE", description := some "Beskrivning",
    event := some "Storm", severity := some "Severe",
    urgency := some "Immediate", areaDesc := some "Stockholms län",
    area := some [{ areaDesc := some "Stockholms län", geocode := some "01" }] }

/-- Sample alert used by witnesses: a county-wide ("01") alert. -/
def countyAlert : Alert :=
  { incidents := some "inc-1", msgType := some "Alert", status := some "Actual",
    info := some [countyAlertInfo] }

/-- Sample cancel message used by witnesses, matching `countyAlert`. -/
def countyCancel : Alert :=
  { incidents := some "inc-1", msgType := some "Cancel", status := some "Actual",
    info := some [{ language := some "sv-SE", description := some "Faran över",
                    event := some "Storm", severity := some "Minor",
                    urgency := some "Past", areaDesc := some "Stockholms län",
                    area := some [{ areaDesc := some "Stockholms län",
                                    geocode := some "01" }] }] }

/-- Sample alert with an empty info array, used by witnesses. -/
def infolessAlert : Alert :=
  { incidents := some "inc-2", msgType := some "Alert", status := some "Actual",
    info := some [] }

/-- Sample Test-status alert used by witnesses. -/
def testStatusAlert : Alert :=
  { incidents := some "inc-3", msgType := some "Alert", status := some "Test",
    info := some [{ language := some "sv-SE", description := some "Testlarm",
                    event := some "Test", severity := some "Minor",
                    urgency := some "Past", areaDesc := some "Sverige",
                    area := some [{ areaDesc := some "Sverige",
                                    geocode := some "00" }] }] }

/-- Sample device environment used by witnesses: an enabled production-mode
device with a Swedish Homey. -/
def sampleEnv : DeviceEnv := { onoff := true, test_mode := false, locale := "sv" }

/-- Sample empty, well-formed device state used by witnesses. -/
def emptyState : DeviceState :=
  { incidents := [], alarm_generic := false, message := none }

lemma string_length_eq_toList (s : String) : s.length = s.toList.length := rfl

lemma length_ne_zero_of_eq {s : String} {n : Nat} (h : s.length = n) (hn : n ≠ 0) :
    s ≠ "" := by
  intro he
  subst he
  exact hn (h.symm.trans rfl)

lemma anyCongr {α : Type} (l : List α) {f g : α → Bool}
    (h : ∀ x ∈ l, f x = g x) : l.any f = l.any g := by
  induction l with
  | nil => rfl
  | cons a l ih =>
    simp only [List.any_cons, h a (List.mem_cons_self a l),
      ih (fun x hx => h x (List.mem_cons_of_mem a hx))]

lemma prefix_all_digits {t g : String} (h : strStartsWith t g = true)
    (hd : t.toList.all Char.isDigit = true) : g.toList.all Char.isDigit = true := by
  simp only [strStartsWith] at h
  rw [List.isPrefixOf_iff_prefix] at h
  simp only [List.all_eq_true] at hd ⊢
  intro c hc
  exact hd c (h.subset hc)

lemma areaRefMatches_eq_spec (t : String) (ht : isAreaCode t = true) (ar : AreaRef) :
    areaRefMatches t ar = specAreaMatch t ar := by
  have hdig : t.toList.all Char.isDigit = true ∧ (t.length = 2 ∨ t.length = 4) := by
    simpa [isAreaCode, Bool.and_eq_true, Bool.or_eq_true] using ht
  obtain ⟨hd, hlen⟩ := hdig
  have htne : t ≠ "" := by
    rcases hlen with h2 | h4
    · exact length_ne_zero_of_eq h2 (by decide)
    · exact length_ne_zero_of_eq h4 (by decide)
  obtain ⟨ad, geo⟩ := ar
  cases geo with
  | none => rfl
  | some g =>
    simp only [areaRefMatches, specAreaMatch]
    rw [Bool.eq_iff_iff]
    constructor
    · intro h
      split_ifs at h with h1 h2 h3
      · simp [h2]
      · simp only [Bool.or_eq_true, Bool.and_eq_true, decide_eq_true_eq]
        exact Or.inr ⟨⟨⟨⟨prefix_all_digits h hd, h3.1⟩, hd⟩, h3.2⟩, h⟩
    · intro h
      simp only [Bool.or_eq_true, Bool.and_eq_true, decide_eq_true_eq] at h
      rcases h with heq | ⟨⟨⟨⟨hgd, hg2⟩, htd⟩, ht4⟩, hsw⟩
      · subst heq
        rw [if_neg htne, if_pos rfl]
      · have hgne : g ≠ "" := length_ne_zero_of_eq hg2 (by decide)
        have hne : g ≠ t := by
          intro he
          rw [he, ht4] at hg2
          exact absurd hg2 (by decide)
        rw [if_neg hgne, if_neg hne, if_pos ⟨hg2, ht4⟩]
        exact hsw

lemma infoMatches_eq_spec (t : String) (ht : isAreaCode t = true) (i : AlertInfo) :
    infoMatches t i = (i.area.getD []).any (specAreaMatch t) := by
  cases ha : i.area with
  | none => simp [infoMatches, ha]
  | some areas =>
    simp only [infoMatches, ha, Option.getD_some]
    exact anyCongr areas (fun ar _ => areaRefMatches_eq_spec t ht ar)

/-- Claim C1: for every target area code T (digits, 2 or 4 characters) and
every alert, the geocode matcher matches when T is the nationwide sentinel
"00"; otherwise it matches iff some info entry has some area whose geocode
equals T exactly or is a 2-digit prefix of a 4-digit T; an alert with no
info array or no area entries never matches a non-"00" target, and a
4-digit alert geocode never matches a 2-digit target. -/
theorem geocode_matcher_agrees_with_spec (T : String) (a : Alert)
    (hT : isAreaCode T = true) :
    geocodeMatches T a = specMatches T a ∧
    (T ≠ "00" → a.info = none → geocodeMatches T a = false) ∧
    (T ≠ "00" → ∀ infos, a.info = some infos →
      (∀ i ∈ infos, i.area = none ∨ i.area = some []) →
      geocodeMatches T a = false) ∧
    (∀ g ar, T.length = 2 → g.length = 4 → ar.geocode = some g →
      areaRefMatches T ar = false) := by
  refine ⟨?_, ?_, ?_, ?_⟩
  · simp only [geocodeMatches, specMatches]
    by_cases h00 : T = "00"
    · simp [h00]
    · rw [if_neg h00, if_neg h00]
      cases hinfo : a.info with
      | none => simp [alertFilterPred, hinfo]
      | some infos =>
        simp only [alertFilterPred, hinfo, Option.getD_some]
        exact anyCongr infos (fun i _ => infoMatches_eq_spec T hT i)
  · intro h00 hinfo
    simp [geocodeMatches, h00, alertFilterPred, hinfo]
  · intro h00 infos hinfo hareas
    simp only [geocodeMatches, if_neg h00, alertFilterPred, hinfo]
    rw [List.any_eq_false]
    intro i hi
    rcases hareas i hi with ha | ha
    · simp [infoMatches, ha]
    · simp [infoMatches, ha]
  · intro g ar h2 h4 hgeo
    have hgne : g ≠ "" := length_ne_zero_of_eq h4 (by decide)
    have hne : g ≠ T := by
      intro he
      rw [he, h2] at h4
      exact absurd h4 (by decide)
    simp only [areaRefMatches, hgeo]
    rw [if_neg hgne, if_neg hne, if_neg]
    intro hc
    rw [h4] at hc
    exact absurd hc.1 (by decide)

/-- Witness for claim C1 at the municipality target "0114" and a county "01"
alert: the hypothesis holds and the matcher agrees with the spec reading
(both match, by the county-prefix rule). -/
theorem geocode_matcher_agrees_with_spec_witness :
    isAreaCode "0114" = true ∧
    geocodeMatches "0114" countyAlert = specMatches "0114" countyAlert ∧
    geocodeMatches "0114" countyAlert = true :=
  ⟨by decide, (geocode_matcher_agrees_with_spec "0114" countyAlert (by decide)).1,
    by decide⟩

/-! ### Lemmas about the incident state machine -/

lemma regLookup_eq_none_of_forall {k : String} {reg : List (String × Alert)}
    (h : ∀ p ∈ reg, p.1 ≠ k) : regLookup k reg = none := by
  induction reg with
  | nil => rfl
  | cons p rest ih =>
    obtain ⟨k', a⟩ := p
    simp only [regLookup]
    rw [if_neg (h (k', a) (List.mem_cons_self _ _))]
    exact ih (fun q hq => h q (List.mem_cons_of_mem _ hq))

lemma regLookup_append_self (k : String) (a : Alert)
    {reg : List (String × Alert)} (h : regLookup k reg = none) :
    regLookup k (reg ++ [(k, a)]) = some a := by
  induction reg with
  | nil => simp [regLookup]
  | cons p rest ih =>
    obtain ⟨k', b⟩ := p
    simp only [regLookup, List.cons_append] at h ⊢
    by_cases hk : k' = k
    · rw [if_pos hk] at h
      exact absurd h (by simp)
    · rw [if_neg hk] at h ⊢
      exact ih h

lemma filter_key_eq_nil {k : String} {reg : List (String × Alert)}
    (h : ∀ p ∈ reg, p.1 ≠ k) :
    reg.filter (fun p => p.1 = k) = [] := by
  induction reg with
  | nil => rfl
  | cons p rest ih =>
    rw [List.filter_cons_of_neg]
    · exact ih (fun q hq => h q (List.mem_cons_of_mem _ hq))
    · simpa using h p (List.mem_cons_self _ _)

lemma isEmpty_append_singleton {α : Type} (l : List α) (x : α) :
    (l ++ [x]).isEmpty = false := by
  cases l <;> rfl

lemma processOneAlert_testfilter (env : DeviceEnv) (s : DeviceState) (a : Alert)
    (htest : a.status = some "Test") (hmode : env.test_mode = false) :
    processOneAlert env s a = (s, [DeviceEvent.reported testWarning]) := by
  simp only [processOneAlert]
  rw [if_pos ⟨htest, hmode⟩]

lemma processOneAlert_insert (env : DeviceEnv) (s : DeviceState) (a : Alert)
    (inf : AlertInfo)
    (hmsg : a.msgType = some "Alert")
    (hnotest : ¬(a.status = some "Test" ∧ env.test_mode = false))
    (habs : regLookup (idKey a) s.incidents = none)
    (hinf : getBestLanguageInfo env.locale a.info = some inf) :
    processOneAlert env s a =
      ({ s with incidents := s.incidents ++ [(idKey a, a)],
                message := some (formatAlertMessage inf a.status) },
       [DeviceEvent.triggered (triggerTokensFor inf a)]) := by
  simp only [processOneAlert]
  rw [if_neg hnotest, if_pos ⟨hmsg, habs⟩, hinf]

lemma processOneAlert_insert_noinfo (env : DeviceEnv) (s : DeviceState)
    (a : Alert)
    (hmsg : a.msgType = some "Alert")
    (hnotest : ¬(a.status = some "Test" ∧ env.test_mode = false))
    (habs : regLookup (idKey a) s.incidents = none)
    (hinf : getBestLanguageInfo env.locale a.info = none) :
    processOneAlert env s a =
      ({ s with incidents := s.incidents ++ [(idKey a, a)] },
       [DeviceEvent.reported noInfoReport]) := by
  simp only [processOneAlert]
  rw [if_neg hnotest, if_pos ⟨hmsg, habs⟩, hinf]

lemma processOneAlert_existing (env : DeviceEnv) (s : DeviceState) (a : Alert)
    (stored : Alert)
    (hmsg : a.msgType = some "Alert")
    (hnotest : ¬(a.status = some "Test" ∧ env.test_mode = false))
    (hpres : regLookup (idKey a) s.incidents = some stored) :
    processOneAlert env s a = (s, []) := by
  have h2 : ¬(a.msgType = some "Alert" ∧ regLookup (idKey a) s.incidents = none) := by
    rintro ⟨-, hnone⟩
    rw [hpres] at hnone
    exact absurd hnone (by simp)
  have h3 : ¬(a.msgType = some "Cancel") := by
    rw [hmsg]
    decide
  simp only [processOneAlert]
  rw [if_neg hnotest, if_neg h2, if_neg h3]

lemma processOneAlert_cancel (env : DeviceEnv) (s : DeviceState) (a : Alert)
    (stored : Alert)
    (hmsg : a.msgType = some "Cancel")
    (hnotest : ¬(a.status = some "Test" ∧ env.test_mode = false))
    (hpres : regLookup (idKey a) s.incidents = some stored) :
    processOneAlert env s a =
      ({ s with incidents := regRemove (idKey a) s.incidents },
       match getBestLanguageInfo env.locale stored.info with
       | some alertInfo => [DeviceEvent.cancelled (cancelTokensFor alertInfo stored (idKey a))]
       | none => []) := by
  have h2 : ¬(a.msgType = some "Alert" ∧ regLookup (idKey a) s.incidents = none) := by
    rintro ⟨hA, -⟩
    rw [hmsg] at hA
    exact absurd hA (by decide)
  simp only [processOneAlert]
  rw [if_neg hnotest, if_neg h2, if_pos hmsg, hpres]

lemma processOneAlert_cancel_absent (env : DeviceEnv) (s : DeviceState)
    (a : Alert)
    (hmsg : a.msgType = some "Cancel")
    (hnotest : ¬(a.status = some "Test" ∧ env.test_mode = false))
    (habs : regLookup (idKey a) s.incidents = none) :
    processOneAlert env s a = (s, []) := by
  have h2 : ¬(a.msgType = some "Alert" ∧ regLookup (idKey a) s.incidents = none) := by
    rintro ⟨hA, -⟩
    rw [hmsg] at hA
    exact absurd hA (by decide)
  simp only [processOneAlert]
  rw [if_neg hnotest, if_neg h2, if_pos hmsg, habs]

lemma processAlertsLoop_singleton (env : DeviceEnv) (s : DeviceState)
    (a : Alert) :
    processAlertsLoop env s [a] = processOneAlert env s a := by
  simp [processAlertsLoop]

lemma processAlertsLoop_append (env : DeviceEnv) (s : DeviceState)
    (l1 l2 : List Alert) :
    processAlertsLoop env s (l1 ++ l2) =
      ((processAlertsLoop env (processAlertsLoop env s l1).1 l2).1,
       (processAlertsLoop env s l1).2 ++
         (processAlertsLoop env (processAlertsLoop env s l1).1 l2).2) := by
  induction l1 generalizing s with
  | nil => simp [processAlertsLoop]
  | cons a l ih => simp [processAlertsLoop, ih, List.append_assoc]

lemma processAlerts_on (env : DeviceEnv) (s : DeviceState) (alerts : List Alert)
    (hon : env.onoff = true) :
    processAlerts env s alerts =
      ({ (processAlertsLoop env s alerts).1 with
          alarm_generic := !(processAlertsLoop env s alerts).1.incidents.isEmpty
          message := if (processAlertsLoop env s alerts).1.incidents.isEmpty
                     then none else (processAlertsLoop env s alerts).1.message },
       (processAlertsLoop env s alerts).2) := by
  simp [processAlerts, hon]

/-- Claim C2: delivering the same Alert message (same incidentId, msgType
"Alert") twice to the same target produces exactly one "triggered" emission,
the target's incident registry ends with exactly one entry for that
incidentId, and the second delivery changes nothing (same state, no
events). -/
theorem alert_delivery_idempotent (env : DeviceEnv) (s0 : DeviceState)
    (a : Alert) (inf : AlertInfo)
    (hon : env.onoff = true)
    (hmsg : a.msgType = some "Alert")
    (hnotest : ¬(a.status = some "Test" ∧ env.test_mode = false))
    (habs : ∀ p ∈ s0.incidents, p.1 ≠ idKey a)
    (hinf : getBestLanguageInfo env.locale a.info = some inf) :
    countTriggered ((processAlerts env s0 [a]).2 ++
        (processAlerts env (processAlerts env s0 [a]).1 [a]).2) = 1 ∧
    ((processAlerts env (processAlerts env s0 [a]).1 [a]).1.incidents.filter
        (fun p => p.1 = idKey a)).length = 1 ∧
    (processAlerts env (processAlerts env s0 [a]).1 [a]).1 =
      (processAlerts env s0 [a]).1 ∧
    (processAlerts env (processAlerts env s0 [a]).1 [a]).2 = [] := by
  have habs' : regLookup (idKey a) s0.incidents = none :=
    regLookup_eq_none_of_forall habs
  have hstep := processOneAlert_insert env s0 a inf hmsg hnotest habs' hinf
  have hr1 : processAlerts env s0 [a] =
      ({ incidents := s0.incidents ++ [(idKey a, a)], alarm_generic := true,
         message := some (formatAlertMessage inf a.status) },
       [DeviceEvent.triggered (triggerTokensFor inf a)]) := by
    rw [processAlerts_on env s0 [a] hon, processAlertsLoop_singleton, hstep]
    simp [isEmpty_append_singleton]
  have hpres : regLookup (idKey a)
      (processAlerts env s0 [a]).1.incidents = some a := by
    rw [hr1]
    exact regLookup_append_self (idKey a) a habs'
  have hstep2 := processOneAlert_existing env (processAlerts env s0 [a]).1 a a
    hmsg hnotest hpres
  have hr2 : processAlerts env (processAlerts env s0 [a]).1 [a] =
      ((processAlerts env s0 [a]).1, []) := by
    rw [processAlerts_on env _ [a] hon, processAlertsLoop_singleton, hstep2,
      hr1]
    simp [isEmpty_append_singleton]
  refine ⟨?_, ?_, ?_, ?_⟩
  · rw [hr2, hr1]
    simp [countTriggered]
  · rw [hr2, hr1]
    show ((s0.incidents ++ [(idKey a, a)]).filter (fun p => p.1 = idKey a)).length = 1
    rw [List.filter_append, filter_key_eq_nil habs]
    simp
  · rw [hr2]
  · rw [hr2]

/-- Witness for claim C2: two deliveries of `countyAlert` to a fresh
production device emit exactly one trigger. -/
theorem alert_delivery_idempotent_witness :
    countTriggered ((processAlerts sampleEnv emptyState [countyAlert]).2 ++
        (processAlerts sampleEnv
          (processAlerts sampleEnv emptyState [countyAlert]).1
          [countyAlert]).2) = 1 :=
  (alert_delivery_idempotent sampleEnv emptyState countyAlert countyAlertInfo
    rfl rfl (by decide) (by decide) (by decide)).1

/-- Claim C3: processing an Alert then a Cancel for the same incidentId
returns the registry to its prior empty state, sets `alarm_generic` to
false and clears the `message` capability to null; and a Cancel for an
incidentId not in the registry is a no-op. -/
theorem alert_cancel_round_trip (env : DeviceEnv) (s0 : DeviceState)
    (a c : Alert)
    (hon : env.onoff = true)
    (hA : a.msgType = some "Alert")
    (hC : c.msgType = some "Cancel")
    (hid : c.incidents = a.incidents)
    (hempty : s0.incidents = [])
    (hta : ¬(a.status = some "Test" ∧ env.test_mode = false))
    (htc : ¬(c.status = some "Test" ∧ env.test_mode = false)) :
    ((processAlerts env (processAlerts env s0 [a]).1 [c]).1.incidents = [] ∧
     (processAlerts env (processAlerts env s0 [a]).1 [c]).1.alarm_generic = false ∧
     (processAlerts env (processAlerts env s0 [a]).1 [c]).1.message = none) ∧
    (∀ s : DeviceState, regLookup (idKey c) s.incidents = none →
      (processAlerts env s [c]).1.incidents = s.incidents ∧
      (processAlerts env s [c]).2 = []) ∧
    (∀ s : DeviceState, wellFormed s = true →
      regLookup (idKey c) s.incidents = none →
      processAlerts env s [c] = (s, [])) := by
  have hkc : idKey c = idKey a := by
    unfold idKey
    rw [hid]
  have habs : regLookup (idKey a) s0.incidents = none := by
    rw [hempty]
    rfl
  have hloop1 : (processAlertsLoop env s0 [a]).1.incidents =
      s0.incidents ++ [(idKey a, a)] := by
    rw [processAlertsLoop_singleton]
    cases hinf : getBestLanguageInfo env.locale a.info with
    | none => rw [processOneAlert_insert_noinfo env s0 a hA hta habs hinf]
    | some inf => rw [processOneAlert_insert env s0 a inf hA hta habs hinf]
  have hr1inc : (processAlerts env s0 [a]).1.incidents = [(idKey a, a)] := by
    rw [processAlerts_on env s0 [a] hon]
    show (processAlertsLoop env s0 [a]).1.incidents = [(idKey a, a)]
    rw [hloop1, hempty, List.nil_append]
  refine ⟨?_, ?_, ?_⟩
  · have hpres : regLookup (idKey c) (processAlerts env s0 [a]).1.incidents =
        some a := by
      rw [hr1inc, hkc]
      simp [regLookup]
    have hstep2 := processOneAlert_cancel env (processAlerts env s0 [a]).1 c a
      hC htc hpres
    have hloop2 : (processAlertsLoop env (processAlerts env s0 [a]).1 [c]).1.incidents
        = [] := by
      rw [processAlertsLoop_singleton, hstep2]
      show regRemove (idKey c) (processAlerts env s0 [a]).1.incidents = []
      rw [hr1inc, hkc]
      simp [regRemove]
    refine ⟨?_, ?_, ?_⟩ <;> rw [processAlerts_on env _ [c] hon] <;>
      simp [hloop2]
  · intro s habsent
    have hstep := processOneAlert_cancel_absent env s c hC htc habsent
    rw [processAlerts_on env s [c] hon, processAlertsLoop_singleton, hstep]
    exact ⟨rfl, rfl⟩
  · intro s hwf habsent
    have hstep := processOneAlert_cancel_absent env s c hC htc habsent
    rw [processAlerts_on env s [c] hon, processAlertsLoop_singleton, hstep]
    obtain ⟨inc, al, ms⟩ := s
    simp only [wellFormed, Bool.and_eq_true, beq_iff_eq, Bool.or_eq_true,
      Bool.not_eq_eq_eq_not, decide_eq_true_eq] at hwf
    cases he : inc.isEmpty with
    | true =>
      have hms : ms = none := by
        rcases hwf.2 with h1 | h2
        · rw [he] at h1
          exact absurd h1 (by decide)
        · exact h2
      have hal : al = false := by
        rw [hwf.1, he]
        rfl
      simp [he, hms, hal]
    | false =>
      have hal : al = true := by
        rw [hwf.1, he]
        rfl
      simp [he, hal]

/-- Witness for claim C3: an Alert then its Cancel on a fresh production
device leaves an empty registry, alarm false and a cleared message. -/
theorem alert_cancel_round_trip_witness :
    (processAlerts sampleEnv
      (processAlerts sampleEnv emptyState [countyAlert]).1
      [countyCancel]).1.incidents = [] :=
  (alert_cancel_round_trip sampleEnv emptyState countyAlert countyCancel
    rfl rfl rfl rfl rfl (by decide) (by decide)).1.1

/-- Claim C7: a status "Test" alert delivered to a target not in test mode
is only reported: the step leaves the state (hence the registry) unchanged
and emits no triggered or cancelled event, and a batch containing it
produces the same final state as the batch with it removed, with one extra
report in the event stream. -/
theorem test_alert_reported_not_processed (env : DeviceEnv) (s0 : DeviceState)
    (a : Alert) (pre post : List Alert)
    (hon : env.onoff = true)
    (hmode : env.test_mode = false)
    (hstatus : a.status = some "Test") :
    (∀ s : DeviceState,
      processOneAlert env s a = (s, [DeviceEvent.reported testWarning])) ∧
    (processAlerts env s0 (pre ++ a :: post)).1 =
      (processAlerts env s0 (pre ++ post)).1 ∧
    (processAlerts env s0 (pre ++ a :: post)).2 =
      (processAlertsLoop env s0 pre).2 ++ DeviceEvent.reported testWarning ::
        (processAlertsLoop env (processAlertsLoop env s0 pre).1 post).2 := by
  have hstepF : ∀ s : DeviceState,
      processOneAlert env s a = (s, [DeviceEvent.reported testWarning]) :=
    fun s => processOneAlert_testfilter env s a hstatus hmode
  have hcons : processAlertsLoop env (processAlertsLoop env s0 pre).1 (a :: post) =
      ((processAlertsLoop env (processAlertsLoop env s0 pre).1 post).1,
       DeviceEvent.reported testWarning ::
         (processAlertsLoop env (processAlertsLoop env s0 pre).1 post).2) := by
    simp [processAlertsLoop, hstepF]
  have hloopEq : processAlertsLoop env s0 (pre ++ a :: post) =
      ((processAlertsLoop env (processAlertsLoop env s0 pre).1 post).1,
       (processAlertsLoop env s0 pre).2 ++ DeviceEvent.reported testWarning ::
         (processAlertsLoop env (processAlertsLoop env s0 pre).1 post).2) := by
    rw [processAlertsLoop_append, hcons]
  have hloopEq2 : processAlertsLoop env s0 (pre ++ post) =
      ((processAlertsLoop env (processAlertsLoop env s0 pre).1 post).1,
       (processAlertsLoop env s0 pre).2 ++
         (processAlertsLoop env (processAlertsLoop env s0 pre).1 post).2) :=
    processAlertsLoop_append env s0 pre post
  refine ⟨hstepF, ?_, ?_⟩
  · rw [processAlerts_on env _ _ hon, processAlerts_on env _ _ hon, hloopEq,
      hloopEq2]
  · rw [processAlerts_on env _ _ hon, hloopEq]

/-- Witness for claim C7: a Test alert on a production device is a pure
report. -/
theorem test_alert_reported_not_processed_witness :
    processOneAlert sampleEnv emptyState testStatusAlert =
      (emptyState, [DeviceEvent.reported testWarning]) :=
  (test_alert_reported_not_processed sampleEnv emptyState testStatusAlert
    [] [] rfl rfl rfl).1 emptyState

/-- Claim C9: an Alert message with a missing or empty info array, whose
incidentId is absent, is still inserted into the registry (so the alarm
indicator becomes true), but no triggered event is emitted (only the
no-language-info report) and the message capability keeps its old value. -/
theorem infoless_alert_registered_without_trigger (env : DeviceEnv)
    (s0 : DeviceState) (a : Alert)
    (hon : env.onoff = true)
    (hmsg : a.msgType = some "Alert")
    (hinfo : a.info = none ∨ a.info = some [])
    (hnotest : ¬(a.status = some "Test" ∧ env.test_mode = false))
    (habs : regLookup (idKey a) s0.incidents = none) :
    (processAlerts env s0 [a]).1.incidents = s0.incidents ++ [(idKey a, a)] ∧
    (processAlerts env s0 [a]).1.alarm_generic = true ∧
    (processAlerts env s0 [a]).1.message = s0.message ∧
    (processAlerts env s0 [a]).2 = [DeviceEvent.reported noInfoReport] ∧
    countTriggered (processAlerts env s0 [a]).2 = 0 := by
  have hbest : getBestLanguageInfo env.locale a.info = none := by
    rcases hinfo with h | h <;> rw [h] <;> rfl
  have hstep := processOneAlert_insert_noinfo env s0 a hmsg hnotest habs hbest
  rw [processAlerts_on env s0 [a] hon, processAlertsLoop_singleton, hstep]
  refine ⟨?_, ?_, ?_, ?_, ?_⟩ <;> simp [isEmpty_append_singleton, countTriggered]

/-- Witness for claim C9: an Alert with an empty info array registers the
incident but emits only the report. -/
theorem infoless_alert_registered_without_trigger_witness :
    (processAlerts sampleEnv emptyState [infolessAlert]).2 =
      [DeviceEvent.reported noInfoReport] :=
  (infoless_alert_registered_without_trigger sampleEnv emptyState infolessAlert
    rfl rfl (Or.inr rfl) (by decide) rfl).2.2.2.1

/-! ### Backoff, breaker, fetch client, endpoint needs, language selection -/

lemma retryCountAfter_le_ten (n : Nat) : retryCountAfter n ≤ 10 := by
  cases n with
  | zero => decide
  | succ m =>
    show nextRetryCount (retryCountAfter m) ≤ 10
    unfold nextRetryCount
    omega

lemma reconnectDelay_mono {r1 r2 : Nat} (h : r1 ≤ r2) :
    reconnectDelay r1 ≤ reconnectDelay r2 := by
  unfold reconnectDelay
  have hpow : 2 ^ (r1 - 1) ≤ 2 ^ (r2 - 1) :=
    Nat.pow_le_pow_right (by decide) (by omega)
  exact min_le_min (Nat.mul_le_mul le_rfl hpow) le_rfl

/-- Claim C4: over a sequence of error-triggered reconnection schedules on
one source, retryCount never exceeds 10 and the computed delays are
bounded by the configured maximum and non-decreasing. -/
theorem backoff_monotone_bounded (n : Nat) :
    retryCountAfter n ≤ 10 ∧
    delayAt n ≤ MAX_BACKOFF_DELAY ∧
    delayAt n ≤ delayAt (n + 1) := by
  refine ⟨retryCountAfter_le_ten n, min_le_right _ _, ?_⟩
  apply reconnectDelay_mono
  show retryCountAfter (n + 1) ≤ nextRetryCount (retryCountAfter (n + 1))
  have h10 := retryCountAfter_le_ten (n + 1)
  unfold nextRetryCount
  omega

lemma breakerStep_preserves (b : Breaker) (e : BreakerEvent)
    (h : BreakerInv b) : BreakerInv (breakerStep b e) := by
  cases e with
  | cooldown =>
    have hb : breakerStep b BreakerEvent.cooldown = initBreaker := rfl
    rw [hb]
    exact ⟨fun _ => by decide, fun hc => absurd hc (by decide)⟩
  | run success =>
    cases hopen : b.apiCircuitOpen with
    | true =>
      have hb : breakerStep b (BreakerEvent.run success) = b := by
        simp [breakerStep, pipelineRun, hopen]
      rw [hb]
      exact h
    | false =>
      cases success with
      | true =>
        constructor
        · intro _
          simp [breakerStep, pipelineRun, hopen]
        · intro hc
          simp [breakerStep, pipelineRun, hopen] at hc
      | false =>
        have hle : b.apiFailureCount ≤ 4 := h.1 hopen
        by_cases h5 : b.apiFailureCount + 1 ≥ 5
        · have hb : breakerStep b (BreakerEvent.run false) =
              { apiFailureCount := b.apiFailureCount + 1, apiCircuitOpen := true } := by
            simp [breakerStep, pipelineRun, hopen, h5]
          rw [hb]
          constructor
          · intro hc
            simp at hc
          · intro _
            show b.apiFailureCount + 1 = 5
            omega
        · have hb : breakerStep b (BreakerEvent.run false) =
              { b with apiFailureCount := b.apiFailureCount + 1 } := by
            simp [breakerStep, pipelineRun, hopen, h5]
          rw [hb]
          constructor
          · intro _
            show b.apiFailureCount + 1 ≤ 4
            omega
          · intro hc
            rw [show ({ b with apiFailureCount := b.apiFailureCount + 1 } :
                Breaker).apiCircuitOpen = b.apiCircuitOpen from rfl, hopen] at hc
            exact absurd hc (by decide)

lemma breakerExec_inv_aux (l : List BreakerEvent) (b : Breaker)
    (h : BreakerInv b) : BreakerInv (l.foldl breakerStep b) := by
  induction l generalizing b with
  | nil => exact h
  | cons e rest ih => exact ih _ (breakerStep_preserves b e h)

lemma breakerExec_inv (events : List BreakerEvent) :
    BreakerInv (breakerExec events) :=
  breakerExec_inv_aux events initBreaker
    ⟨fun _ => by decide, fun hc => absurd hc (by decide)⟩

/-- Claim C5: in every reachable breaker state, an open circuit skips the
run entirely (no fetch, no state change); from a closed state a failing run
opens the circuit exactly when the failure count reaches 5; the cool-down
reset clears both fields; and a successful run resets the failure count
to 0. -/
theorem circuit_breaker_behavior (events : List BreakerEvent)
    (success : Bool) :
    ((breakerExec events).apiCircuitOpen = true →
      pipelineRun (breakerExec events) success = (breakerExec events, false)) ∧
    ((breakerExec events).apiCircuitOpen = false →
      ((pipelineRun (breakerExec events) false).1.apiCircuitOpen = true ↔
        (breakerExec events).apiFailureCount + 1 = 5)) ∧
    cooldownReset (breakerExec events) = initBreaker ∧
    ((breakerExec events).apiCircuitOpen = false →
      (pipelineRun (breakerExec events) true).1.apiFailureCount = 0) := by
  have hinv := breakerExec_inv events
  refine ⟨?_, ?_, rfl, ?_⟩
  · intro hopen
    simp [pipelineRun, hopen]
  · intro hclosed
    have hle := hinv.1 hclosed
    by_cases h5 : (breakerExec events).apiFailureCount + 1 ≥ 5
    · simp [pipelineRun, hclosed, h5]
      omega
    · simp [pipelineRun, hclosed, h5]
      omega
  · intro hclosed
    simp [pipelineRun, hclosed]

/-- Witness for claim C5: after five consecutive failing runs the circuit
is open and a further run is skipped with no fetch. -/
theorem circuit_breaker_behavior_witness :
    pipelineRun (breakerExec (List.replicate 5 (BreakerEvent.run false))) true =
      (breakerExec (List.replicate 5 (BreakerEvent.run false)), false) :=
  (circuit_breaker_behavior (List.replicate 5 (BreakerEvent.run false)) true).1
    (by decide)

/-- Claim C6: the fetch client is total — for every outcome of the GET it
returns the source tag and a list of alerts, which is empty on any failure
and when the `alerts` field is absent, and is the `alerts` array when
present. -/
theorem fetch_client_never_raises (type : String)
    (response : Except String ApiPayload) :
    (fetchAlertsFromEndpoint type response).1 = type ∧
    (∀ e, response = Except.error e →
      (fetchAlertsFromEndpoint type response).2 = []) ∧
    (response = Except.ok { alerts := none } →
      (fetchAlertsFromEndpoint type response).2 = []) ∧
    (∀ l, response = Except.ok { alerts := some l } →
      (fetchAlertsFromEndpoint type response).2 = l) := by
  refine ⟨?_, ?_, ?_, ?_⟩
  · cases response <;> rfl
  · rintro e rfl
    rfl
  · rintro rfl
    rfl
  · rintro l rfl
    rfl

/-- Witness for claim C6: a timed-out production fetch yields the empty
alert list. -/
theorem fetch_client_never_raises_witness :
    (fetchAlertsFromEndpoint "production"
      (Except.error "timeout of 10000ms exceeded")).2 = [] :=
  (fetch_client_never_raises "production"
      (Except.error "timeout of 10000ms exceeded")).2.1
    "timeout of 10000ms exceeded" rfl

/-- Claim C10: when enumerating the registered devices fails, the
needed-endpoint computation reports that neither source is needed, so the
reconciliation closes both streaming connections and cancels their pending
reconnect timers, whatever the prior connection state was. -/
theorem enumeration_failure_closes_both (e : String)
    (now prodHandle testHandle : Nat) (st : SSEState) :
    getDeviceEndpointNeeds (Except.error e) = (false, false) ∧
    setupSSEConnections (Except.error e) now prodHandle testHandle st =
      { productionSSE := closeSSE st.productionSSE,
        testSSE := closeSSE st.testSSE } ∧
    (setupSSEConnections (Except.error e) now prodHandle testHandle
        st).productionSSE.eventSource = none ∧
    (setupSSEConnections (Except.error e) now prodHandle testHandle
        st).productionSSE.reconnectTimer = none ∧
    (setupSSEConnections (Except.error e) now prodHandle testHandle
        st).testSSE.eventSource = none ∧
    (setupSSEConnections (Except.error e) now prodHandle testHandle
        st).testSSE.reconnectTimer = none :=
  ⟨rfl, rfl, rfl, rfl, rfl, rfl⟩

lemma find?_congr {α : Type} (l : List α) {f g : α → Bool}
    (h : ∀ x ∈ l, f x = g x) : l.find? f = l.find? g := by
  induction l with
  | nil => rfl
  | cons a rest ih =>
    simp only [List.find?]
    rw [h a (List.mem_cons_self _ _)]
    cases g a
    · exact ih (fun x hx => h x (List.mem_cons_of_mem _ hx))
    · rfl

lemma languageMatches_eq_prefix (lang : String) (i : AlertInfo) :
    languageMatches lang i =
      (match i.language with
       | none => false
       | some l => (lowerChars lang).isPrefixOf (lowerChars l)) := by
  cases hl : i.language <;> simp [languageMatches, lowerChars, hl]

/-- Counterexample to claim C8 as stated: with host locale "en" and info
entries [sv-SE, en-GB], exact-locale-match selection would fall back to
the Swedish entry, but the code's prefix match selects the en-GB entry. -/
theorem best_language_exact_match_counterexample :
    getBestLanguageInfo "en" (some [svInfoEx, enGbInfoEx]) = some enGbInfoEx ∧
    specBestLanguageInfo "en" (some [svInfoEx, enGbInfoEx]) = some svInfoEx ∧
    getBestLanguageInfo "en" (some [svInfoEx, enGbInfoEx]) ≠
      specBestLanguageInfo "en" (some [svInfoEx, enGbInfoEx]) := by
  refine ⟨by decide, by decide, by decide⟩

/-- Claim C8 amended: the best-language AlertInfo is the first entry whose
lower-cased language starts with the lower-cased host locale, falling back
to the first entry whose language starts with "sv", falling back to the
first entry; the display message is the selected info's description,
falling back to its event, falling back to the placeholder "VMA Alert",
and it is the `message` token of the emitted trigger. -/
theorem best_language_selection_amended (homeyLanguage : String)
    (infoArray : Option (List AlertInfo)) :
    getBestLanguageInfo homeyLanguage infoArray =
      amendedBestLanguageInfo homeyLanguage infoArray ∧
    (∀ inf status, formatAlertMessage inf status =
      jsOr inf.description (jsOr inf.event "VMA Alert")) ∧
    (∀ inf a, (triggerTokensFor inf a).message =
      formatAlertMessage inf a.status) := by
  refine ⟨?_, fun _ _ => rfl, fun _ _ => rfl⟩
  cases infoArray with
  | none => rfl
  | some infos =>
    cases infos with
    | nil => rfl
    | cons i0 rest =>
      simp only [getBestLanguageInfo, amendedBestLanguageInfo]
      rw [find?_congr (i0 :: rest)
          (fun i _ => languageMatches_eq_prefix homeyLanguage i),
        find?_congr (i0 :: rest)
          (fun i _ => languageMatches_eq_prefix "sv" i)]

end HesaFredrik
